import Mathlib

/-!
Shallow embedding of the dokydoc analysis core (backend/app/services) and
proofs about the spec's claims.  Python strings are modelled as `List Char`,
machine integers as `Int`/`Nat`, database tables as Lean lists, and fallible
operations return `Except`/`Option`.
-/

namespace Dokydoc

/-! ## Python string primitives used by the services -/

/-- Python whitespace as used by `str.strip()`. -/
def pyIsSpace (c : Char) : Bool :=
  c = ' ' || c = '\t' || c = '\n' || c = '\x0d' || c = '\x0b' || c = '\x0c'

/-- `str.strip()`: drop leading and trailing whitespace. -/
def pyStrip (s : List Char) : List Char :=
  ((s.dropWhile pyIsSpace).reverse.dropWhile pyIsSpace).reverse

/-- `str.find(ch)`: index of the first occurrence, or `-1` when absent. -/
def pyFind (s : List Char) (c : Char) : Int :=
  match s.findIdx? (fun a => a == c) with
  | some i => (i : Int)
  | none => -1

/-- `str.count(ch)` for a single character. -/
def pyCount (s : List Char) (c : Char) : Nat :=
  (s.filter (fun a => a == c)).length

/-! ## Response Repair (`repair_json_response` in analysis_service.py) -/

/-- Embedding of `repair_json_response` (analysis_service.py lines 15-58):
empty input yields `"\x7b\x7d"`; otherwise strip, peel a fenced code block,
strip again, jump to `max(find('\x7b'), find('['))` when the text does not
start with `'\x7b'` or `'['`, then append the unmatched closers. -/
def repair_json_response (response_text : List Char) : List Char :=
  if response_text.isEmpty then ['{', '}']
  else
    let cleaned := pyStrip response_text
    let cleaned :=
      if ("```json".toList).isPrefixOf cleaned then cleaned.drop 7
      else if ("```".toList).isPrefixOf cleaned then cleaned.drop 3
      else cleaned
    let cleaned :=
      if ("```".toList).isSuffixOf cleaned then cleaned.take (cleaned.length - 3)
      else cleaned
    let cleaned := pyStrip cleaned
    let cleaned :=
      if !(cleaned.head? == some '{') && !(cleaned.head? == some '[') then
        let jsonStart := max (pyFind cleaned '{') (pyFind cleaned '[')
        if jsonStart != -1 then cleaned.drop jsonStart.toNat else cleaned
      else cleaned
    if cleaned.head? == some '{' then
      let openBraces : Int := (pyCount cleaned '{' : Int) - (pyCount cleaned '}' : Int)
      if 0 < openBraces then cleaned ++ List.replicate openBraces.toNat '}' else cleaned
    else if cleaned.head? == some '[' then
      let openBrackets : Int := (pyCount cleaned '[' : Int) - (pyCount cleaned ']' : Int)
      if 0 < openBrackets then cleaned ++ List.replicate openBrackets.toNat ']' else cleaned
    else cleaned

/-- The variant of the repair step that claim C8 describes: when the trimmed
text starts with neither `'\x7b'` nor `'['`, discard the prefix before the
EARLIEST occurrence of either (the code instead takes the later one via
`max`).  Identical to `repair_json_response` except for that one step. -/
def repairFirstOccurrenceVariant (response_text : List Char) : List Char :=
  if response_text.isEmpty then ['{', '}']
  else
    let cleaned := pyStrip response_text
    let cleaned :=
      if ("```json".toList).isPrefixOf cleaned then cleaned.drop 7
      else if ("```".toList).isPrefixOf cleaned then cleaned.drop 3
      else cleaned
    let cleaned :=
      if ("```".toList).isSuffixOf cleaned then cleaned.take (cleaned.length - 3)
      else cleaned
    let cleaned := pyStrip cleaned
    let cleaned :=
      if !(cleaned.head? == some '{') && !(cleaned.head? == some '[') then
        let a := pyFind cleaned '{'
        let b := pyFind cleaned '['
        let jsonStart := if a = -1 then b else if b = -1 then a else min a b
        if jsonStart != -1 then cleaned.drop jsonStart.toNat else cleaned
      else cleaned
    if cleaned.head? == some '{' then
      let openBraces : Int := (pyCount cleaned '{' : Int) - (pyCount cleaned '}' : Int)
      if 0 < openBraces then cleaned ++ List.replicate openBraces.toNat '}' else cleaned
    else if cleaned.head? == some '[' then
      let openBrackets : Int := (pyCount cleaned '[' : Int) - (pyCount cleaned ']' : Int)
      if 0 < openBrackets then cleaned ++ List.replicate openBrackets.toNat ']' else cleaned
    else cleaned

/-! ## Data model: runs and segments (models/analysis_run.py, document_segment.py) -/

/-- `AnalysisRunStatus` (models/analysis_run.py). -/
inductive AnalysisRunStatus where
  | pending
  | running
  | completed
  | failed
  | cancelled
deriving DecidableEq, Repr

/-- `SegmentStatus` (models/document_segment.py). -/
inductive SegmentStatus where
  | pending
  | processing
  | completed
  | failed
  | skipped
deriving DecidableEq, Repr

/-- `AnalysisRun` row (the columns the run-lifecycle service reads or writes). -/
structure AnalysisRun where
  id : Nat
  document_id : Nat
  triggered_by_user_id : Nat
  status : AnalysisRunStatus
  learning_mode : Bool
  total_segments : Nat
  completed_segments : Nat
  failed_segments : Nat
  error_message : Option (List Char)
deriving DecidableEq, Repr

/-- `DocumentSegment` row.  Character offsets are `Int` because they arrive
unvalidated from oracle JSON. -/
structure SegmentRow where
  id : Nat
  document_id : Nat
  segment_type : List Char
  start_char_index : Int
  end_char_index : Int
  status : SegmentStatus
  retry_count : Nat
  last_error : Option (List Char)
  analysis_run_id : Option Nat
deriving DecidableEq, Repr

/-- Errors raised by `AnalysisRunService` (`ValueError` in the source; the
conflict case is the Conflict condition of the spec). -/
inductive RunError where
  | conflict
  | notFound
deriving DecidableEq, Repr

/-! ## Run Lifecycle Manager (analysis_run_service.py) -/

/-- `AnalysisRunService.get_active_run` (lines 54-59): first run of the
document whose status is pending or running. -/
def get_active_run (runs : List AnalysisRun) (document_id : Nat) : Option AnalysisRun :=
  runs.find? (fun r =>
    r.document_id == document_id &&
      (r.status == AnalysisRunStatus.pending || r.status == AnalysisRunStatus.running))

/-- `AnalysisRunService.create_analysis_run` (lines 21-52): raise the conflict
error when an active run exists (the session is untouched), otherwise insert a
new pending run.  Returns the run table after the call plus the outcome. -/
def create_analysis_run (runs : List AnalysisRun) (next_id document_id user_id : Nat)
    (learning_mode : Bool) : List AnalysisRun × Except RunError AnalysisRun :=
  match get_active_run runs document_id with
  | some _ => (runs, Except.error RunError.conflict)
  | none =>
    let run : AnalysisRun :=
      { id := next_id
        document_id := document_id
        triggered_by_user_id := user_id
        status := AnalysisRunStatus.pending
        learning_mode := learning_mode
        total_segments := 0
        completed_segments := 0
        failed_segments := 0
        error_message := none }
    (runs ++ [run], Except.ok run)

/-- `AnalysisRunService.start_run` (lines 61-73): unconditionally set the
run's status to running (no check of the current status). -/
def start_run (runs : List AnalysisRun) (run_id : Nat) :
    List AnalysisRun × Except RunError AnalysisRun :=
  match runs.find? (fun r => r.id == run_id) with
  | none => (runs, Except.error RunError.notFound)
  | some r =>
    let r' := { r with status := AnalysisRunStatus.running }
    (runs.map (fun q => if q.id == run_id then r' else q), Except.ok r')

/-- `AnalysisRunService.complete_run` (lines 75-97): set completed/failed and
recompute the segment counters by scanning the run's segments. -/
def complete_run (runs : List AnalysisRun) (segments : List SegmentRow) (run_id : Nat)
    (success : Bool) : List AnalysisRun × Except RunError AnalysisRun :=
  match runs.find? (fun r => r.id == run_id) with
  | none => (runs, Except.error RunError.notFound)
  | some r =>
    let runSegs := segments.filter (fun s => s.analysis_run_id == some run_id)
    let r' : AnalysisRun :=
      { r with
        status := if success then AnalysisRunStatus.completed else AnalysisRunStatus.failed
        total_segments := runSegs.length
        completed_segments := (runSegs.filter (fun s => s.status == SegmentStatus.completed)).length
        failed_segments := (runSegs.filter (fun s => s.status == SegmentStatus.failed)).length }
    (runs.map (fun q => if q.id == run_id then r' else q), Except.ok r')

/-- `AnalysisRunService.fail_run` (lines 99-114): set failed and record the
error message, unconditionally. -/
def fail_run (runs : List AnalysisRun) (run_id : Nat) (error_message : List Char) :
    List AnalysisRun × Except RunError AnalysisRun :=
  match runs.find? (fun r => r.id == run_id) with
  | none => (runs, Except.error RunError.notFound)
  | some r =>
    let r' := { r with status := AnalysisRunStatus.failed, error_message := some error_message }
    (runs.map (fun q => if q.id == run_id then r' else q), Except.ok r')

/-- Selection predicate of `retry_failed_segments` (lines 185-189): failed
segments of the run with `retry_count < max_retries`. -/
def retrySelect (run_id max_retries : Nat) (s : SegmentRow) : Bool :=
  s.analysis_run_id == some run_id && s.status == SegmentStatus.failed &&
    decide (s.retry_count < max_retries)

/-- Loop body of `retry_failed_segments` (lines 192-196): a selected segment
is reset to pending, its retry count incremented and its error cleared; any
other segment is untouched. -/
def retryStep (run_id max_retries : Nat) (s : SegmentRow) : SegmentRow :=
  if retrySelect run_id max_retries s then
    { s with status := SegmentStatus.pending, retry_count := s.retry_count + 1,
             last_error := none }
  else s

/-- `AnalysisRunService.retry_failed_segments` (lines 180-202): reset the
selected segments and return the new segment table with the reset ids. -/
def retry_failed_segments (segments : List SegmentRow) (run_id max_retries : Nat) :
    List SegmentRow × List Nat :=
  ( segments.map (retryStep run_id max_retries),
    (segments.filter (retrySelect run_id max_retries)).map (fun s => s.id) )

/-! ## Pass 2 — content segmentation (analysis_service.py lines 260-291) -/

/-- A candidate segment proposed by the Pass-2 oracle response
(`segmentation_data["segments"]` entries). -/
structure SegCandidate where
  segment_type : List Char
  start_char_index : Int
  end_char_index : Int
deriving DecidableEq, Repr

/-- `composition.get(segment_type, 0)`: look the type up in the Pass-1
composition map, defaulting to 0. -/
def compositionLookup (composition : List (List Char × Int)) (ty : List Char) : Int :=
  match composition.find? (fun p => p.1 == ty) with
  | some p => p.2
  | none => 0

/-- The filter loop (lines 268-277): keep exactly the candidates whose type
has a strictly positive composition percentage. -/
def pass2FilterCandidates (composition : List (List Char × Int))
    (candidates : List SegCandidate) : List SegCandidate :=
  candidates.filter (fun c => decide (0 < compositionLookup composition c.segment_type))

/-- The Segment row created for one kept candidate (lines 281-289): the
candidate's type and offsets are copied verbatim, status and retry count take
their column defaults. -/
def candidateRow (document_id id : Nat) (c : SegCandidate) : SegmentRow :=
  { id := id
    document_id := document_id
    segment_type := c.segment_type
    start_char_index := c.start_char_index
    end_char_index := c.end_char_index
    status := SegmentStatus.pending
    retry_count := 0
    last_error := none
    analysis_run_id := none }

/-- The creation loop over the kept candidates (ids are assigned by the
database, modelled as consecutive from `next_id`). -/
def materializeRows (document_id : Nat) : Nat → List SegCandidate → List SegmentRow
  | _, [] => []
  | next_id, c :: cs => candidateRow document_id next_id c :: materializeRows document_id (next_id + 1) cs

/-- `_pass_2_content_segmentation`, lines 260-291 (given the parsed candidate
list): filter by strictly positive composition, then create the rows. -/
def pass2Materialize (document_id first_id : Nat) (composition : List (List Char × Int))
    (candidates : List SegCandidate) : List SegmentRow :=
  materializeRows document_id first_id (pass2FilterCandidates composition candidates)

/-! ## JSON values and Pass 3 — structured extraction (lines 312-405) -/

/-- JSON values, the shape of parsed oracle output. -/
inductive Json where
  | null
  | bool (b : Bool)
  | num (n : Int)
  | str (s : List Char)
  | arr (xs : List Json)
  | obj (fields : List (List Char × Json))

/-- The Python truthiness test of line 378: the parsed value creates a result
only when it is a non-empty dict or a non-empty list. -/
def isNonEmptyContainer : Json → Bool
  | Json.obj l => !l.isEmpty
  | Json.arr l => !l.isEmpty
  | _ => false

/-- The first-attempt cleaning of Pass 3 (lines 351-358): strip, peel a
fenced-code-block wrapper, strip again. -/
def pass3Clean (response_text : List Char) : List Char :=
  let cleaned := pyStrip response_text
  let cleaned :=
    if ("```json".toList).isPrefixOf cleaned then cleaned.drop 7
    else if ("```".toList).isPrefixOf cleaned then cleaned.drop 3
    else cleaned
  let cleaned :=
    if ("```".toList).isSuffixOf cleaned then cleaned.take (cleaned.length - 3)
    else cleaned
  pyStrip cleaned

/-- One iteration of the Pass-3 segment loop (lines 327-394), parameterised by
the JSON parser and by the oracle (which may raise).  Returns the
`structured_data` persisted for the segment, or `none` when the segment is
skipped: oracle exception, both parse attempts failing, or empty/falsy data.
The segment row itself is never written to. -/
def pass3ProcessSegment (parse : List Char → Option Json)
    (oracle : SegmentRow → Except (List Char) (List Char)) (seg : SegmentRow) :
    Option Json :=
  match oracle seg with
  | Except.error _ => none
  | Except.ok response =>
    let firstParse := parse (pass3Clean response)
    match firstParse with
    | some d => if isNonEmptyContainer d then some d else none
    | none =>
      match parse (repair_json_response response) with
      | some d => if isNonEmptyContainer d then some d else none
      | none => none

/-- `_pass_3_structured_extraction` over the document's segments: the segment
table is returned unchanged (the pass contains no status write), and the
created AnalysisResults are the per-segment outcomes in order. -/
def pass3StructuredExtraction (parse : List Char → Option Json)
    (oracle : SegmentRow → Except (List Char) (List Char))
    (segments : List SegmentRow) : List SegmentRow × List (Nat × Json) :=
  ( segments,
    segments.filterMap (fun s =>
      (pass3ProcessSegment parse oracle s).map (fun d => (s.id, d))) )

/-! ## Validation / Mismatch Engine (validation_service.py, crud_mismatch.py) -/

/-- A `Mismatch` row (models/mismatch.py columns written by the service;
the `details` JSON object is flattened into its five fields). -/
structure MismatchRow where
  id : Nat
  owner_id : Nat
  document_id : Nat
  code_component_id : Nat
  mismatch_type : List Char
  description : List Char
  severity : List Char
  confidence : List Char
  expected : List Char
  actual : List Char
  evidence_document : List Char
  evidence_code : List Char
  suggested_action : List Char
  status : List Char
deriving DecidableEq, Repr

/-- `ValidationService.validate_single_link` (lines 95-159) as a transformer
of the Mismatch table.  A missing document/component or empty document
content returns early without error (lines 106-112).  Otherwise lines
117-122 construct `ValidationContext(document_content=..., code_content=...,
document_type=..., validation_type=ValidationType.CONSISTENCY_CHECK)` — but
the dataclass in gemini.py has fields `focus_area` / `document_analysis` /
`code_analysis`, `ValidationType` has no member `CONSISTENCY_CHECK`, and
`CodeComponent` has no `content` column (evaluating the
`code_component.content` argument raises AttributeError first) — so every
call that passes the guards raises before the oracle is even reached; the
`except` at lines 157-159 logs and re-raises.  The insert at line 147 is
unreachable, and the function never writes or deletes any Mismatch row. -/
def validate_single_link (table : List MismatchRow)
    (link_document_id link_code_component_id user_id : Nat)
    (document_found code_component_found document_has_content : Bool) :
    List MismatchRow × Except (List Char) Unit :=
  if !document_found || !code_component_found then (table, Except.ok ())
  else if !document_has_content then (table, Except.ok ())
  else
    (table,
      Except.error ("AttributeError: CodeComponent has no attribute content".toList))

/-- `CRUDMismatch.remove_by_link` (crud_mismatch.py lines 45-55): delete every
mismatch of the pairing, returning the new table and the deleted count.
Defined in the source "for the ValidationService" but never invoked by it. -/
def remove_by_link (table : List MismatchRow) (document_id code_component_id : Nat) :
    List MismatchRow × Nat :=
  ( table.filter (fun m =>
      !(m.document_id == document_id && m.code_component_id == code_component_id)),
    (table.filter (fun m =>
      m.document_id == document_id && m.code_component_id == code_component_id)).length )

/-! ## Oracle clients (services/ai/gemini.py, document_parser.py) -/

/-- `str.replace(pat, '')`: remove every non-overlapping occurrence of `pat`,
scanning left to right. -/
def pyRemoveAll (pat : List Char) : List Char → List Char
  | [] => []
  | c :: rest =>
    if h : pat ≠ [] ∧ pat.isPrefixOf (c :: rest) then
      pyRemoveAll pat ((c :: rest).drop pat.length)
    else c :: pyRemoveAll pat rest
termination_by s => s.length
decreasing_by
  · simp only [List.length_drop, List.length_cons]
    have hp : 0 < pat.length := List.length_pos.mpr h.1
    omega
  · simp only [List.length_cons]
    omega

/-- The response cleaning shared by the gemini.py call sites:
`text.strip().replace('```json', '').replace('```', '').strip()`. -/
def cleanGeminiText (text : List Char) : List Char :=
  pyStrip (pyRemoveAll ("```".toList) (pyRemoveAll ("```json".toList) (pyStrip text)))

/-- `call_gemini_for_validation` (gemini.py lines 210-267): any exception —
including a failed oracle call — yields `[]`; a parsed non-list also
yields `[]`. -/
def call_gemini_for_validation (parse : List Char → Option Json)
    (oracle : Except (List Char) (List Char)) : List Json :=
  match oracle with
  | Except.error _ => []
  | Except.ok text =>
    match parse (cleanGeminiText text) with
    | none => []
    | some j =>
      match j with
      | Json.arr l => l
      | _ => []

/-- The sentinel dict returned by `call_gemini_for_code_analysis` on a JSON
parse error (lines 130-136). -/
def codeAnalysisParseErrorResult : Json :=
  Json.obj
    [ ("summary".toList, Json.str ("AI analysis failed due to JSON parsing error.".toList)),
      ("structured_analysis".toList,
        Json.obj [("error".toList, Json.str ("JSON Parse Error".toList))]) ]

/-- The sentinel dict returned by `call_gemini_for_code_analysis` on any other
exception (lines 137-142), carrying the stringified error. -/
def codeAnalysisCallErrorResult (e : List Char) : Json :=
  Json.obj
    [ ("summary".toList, Json.str ("AI analysis failed due to unexpected error.".toList)),
      ("structured_analysis".toList, Json.obj [("error".toList, Json.str e)]) ]

/-- `call_gemini_for_code_analysis` (gemini.py lines 21-142): a failed call or
a failed parse is swallowed and an error-shaped dict is returned instead. -/
def call_gemini_for_code_analysis (parse : List Char → Option Json)
    (oracle : Except (List Char) (List Char)) : Json :=
  match oracle with
  | Except.error e => codeAnalysisCallErrorResult e
  | Except.ok text =>
    match parse (cleanGeminiText text) with
    | none => codeAnalysisParseErrorResult
    | some j => j

/-- `MultiModalDocumentParser._process_with_gemini` (document_parser.py lines
205-219): the body re-raises any exception and the `retry` decorator stops
after 3 attempts, so the third attempt's outcome — error included — is
propagated to the caller. -/
def process_with_gemini (attempts : Nat → Except (List Char) (List Char)) :
    Except (List Char) (List Char) :=
  match attempts 0 with
  | Except.ok t => Except.ok t
  | Except.error _ =>
    match attempts 1 with
    | Except.ok t => Except.ok t
    | Except.error _ => attempts 2

/-- Concrete run used in the C3 scenario: a completed (terminal) run. -/
def completedDemoRun : AnalysisRun :=
  { id := 1
    document_id := 1
    triggered_by_user_id := 1
    status := AnalysisRunStatus.completed
    learning_mode := false
    total_segments := 0
    completed_segments := 0
    failed_segments := 0
    error_message := none }

end Dokydoc

namespace Dokydoc

/-!  ## Theorems for the claims  -/

/-- C10: for empty (falsy) input `repair_json_response` returns the two
characters `"\x7b\x7d"`, an empty JSON object — exactly what a well-formed
response that legitimately contains an empty object also repairs to, so the
two are indistinguishable after repair. -/
theorem repair_empty_input_yields_empty_object :
    repair_json_response [] = ['{', '}'] ∧
    repair_json_response ("\x7b\x7d".toList) = ['{', '}'] := by decide

/-- C8 (evaluation at the failing input): on `"xx[yy\x7bzz"` — whose trimmed
text starts with neither brace and contains `'['` at index 2 and `'\x7b'` at
index 5 — the code jumps to `max(find('\x7b'), find('['))`, i.e. the LATER
first occurrence, producing `"\x7bzz\x7d"`; the claimed earliest-occurrence
behaviour (also stated by the code's own comment "Try to find the first
\x7b or [") would keep the `'['` and produce `"[yy\x7bzz]"`. -/
theorem repair_discards_prefix_to_later_occurrence :
    pyFind ("xx[yy\x7bzz".toList) '[' = 2 ∧
    pyFind ("xx[yy\x7bzz".toList) '{' = 5 ∧
    repair_json_response ("xx[yy\x7bzz".toList) = "\x7bzz\x7d".toList ∧
    repairFirstOccurrenceVariant ("xx[yy\x7bzz".toList) = "[yy\x7bzz]".toList ∧
    repair_json_response ("xx[yy\x7bzz".toList) ≠
      repairFirstOccurrenceVariant ("xx[yy\x7bzz".toList) := by decide

/-- The active-run predicate of `get_active_run`, as a proposition. -/
def IsActiveFor (document_id : Nat) (r : AnalysisRun) : Prop :=
  r.document_id = document_id ∧
    (r.status = AnalysisRunStatus.pending ∨ r.status = AnalysisRunStatus.running)

theorem get_active_run_eq_none_iff (runs : List AnalysisRun) (document_id : Nat) :
    get_active_run runs document_id = none ↔ ∀ r ∈ runs, ¬ IsActiveFor document_id r := by
  unfold get_active_run
  rw [List.find?_eq_none]
  constructor
  · intro h r hr
    have := h r hr
    simp only [Bool.and_eq_true, Bool.or_eq_true, beq_iff_eq] at this
    intro hact
    exact this ⟨hact.1, by rcases hact.2 with h1 | h1 <;> simp [h1]⟩
  · intro h r hr
    have := h r hr
    simp only [Bool.and_eq_true, Bool.or_eq_true, beq_iff_eq]
    intro hc
    exact this ⟨hc.1, by rcases hc.2 with h1 | h1 <;> simp_all⟩

/-- C1: `create_analysis_run` fails with the Conflict condition exactly when
an active (pending/running) run for the document exists; on that failure the
run table — the existing run's status included — is unchanged, and otherwise
a single new run with status pending is appended. -/
theorem create_run_conflict_iff (runs : List AnalysisRun)
    (next_id document_id user_id : Nat) (lm : Bool) :
    ((create_analysis_run runs next_id document_id user_id lm).2 =
        Except.error RunError.conflict ↔ ∃ r ∈ runs, IsActiveFor document_id r) ∧
    ((create_analysis_run runs next_id document_id user_id lm).2 =
        Except.error RunError.conflict →
      (create_analysis_run runs next_id document_id user_id lm).1 = runs) ∧
    ((¬ ∃ r ∈ runs, IsActiveFor document_id r) →
      ∃ run, (create_analysis_run runs next_id document_id user_id lm).2 = Except.ok run ∧
        run.status = AnalysisRunStatus.pending ∧
        (create_analysis_run runs next_id document_id user_id lm).1 = runs ++ [run]) := by
  unfold create_analysis_run
  cases h : get_active_run runs document_id with
  | some r =>
    have hmem : r ∈ runs := List.mem_of_find?_eq_some h
    have hp := List.find?_some h
    simp only [Bool.and_eq_true, Bool.or_eq_true, beq_iff_eq] at hp
    have hact : IsActiveFor document_id r :=
      ⟨hp.1, by rcases hp.2 with h1 | h1 <;> simp_all [AnalysisRunStatus.pending.sizeOf_spec]⟩
    refine ⟨⟨fun _ => ⟨r, hmem, hact⟩, fun _ => rfl⟩, fun _ => rfl, fun hno => absurd ⟨r, hmem, hact⟩ hno⟩
  | none =>
    have hno : ∀ r ∈ runs, ¬ IsActiveFor document_id r :=
      (get_active_run_eq_none_iff runs document_id).mp h
    refine ⟨⟨fun hc => by simp at hc, fun hex => ?_⟩, fun hc => by simp at hc, fun _ => ⟨_, rfl, rfl, rfl⟩⟩
    obtain ⟨r, hr, hact⟩ := hex
    exact absurd hact (hno r hr)

/-- C1 witness: on an empty run table `create_analysis_run` succeeds with a
pending run appended. -/
theorem create_run_conflict_iff_witness :
    ∃ run, (create_analysis_run [] 5 1 2 false).2 = Except.ok run ∧
      run.status = AnalysisRunStatus.pending ∧
      (create_analysis_run [] 5 1 2 false).1 = [] ++ [run] :=
  (create_run_conflict_iff [] 5 1 2 false).2.2 (by simp)

/-- C3 counterexample: `start_run` applied to a run already in the terminal
state completed moves it back to running — the lifecycle operations do not
guard on the current status, so a terminal-state transition is not final. -/
theorem start_run_resurrects_completed_run :
    completedDemoRun.status = AnalysisRunStatus.completed ∧
    (start_run [completedDemoRun] 1).2 =
      Except.ok { completedDemoRun with status := AnalysisRunStatus.running } ∧
    (start_run [completedDemoRun] 1).1 =
      [{ completedDemoRun with status := AnalysisRunStatus.running }] := by
  refine ⟨rfl, rfl, rfl⟩

/-- C3 amended: the lifecycle operations set the target's status
unconditionally — `start_run` to running, `complete_run` to
completed/failed, `fail_run` to failed — and none of them ever moves any run
back to pending; but they do not check the current status, so terminal
finality is not enforced (see the counterexample). -/
theorem lifecycle_ops_never_produce_pending (runs : List AnalysisRun)
    (segments : List SegmentRow) (run_id : Nat) (success : Bool) (msg : List Char) :
    (∀ run, (start_run runs run_id).2 = Except.ok run →
      run.status = AnalysisRunStatus.running) ∧
    (∀ run, (complete_run runs segments run_id success).2 = Except.ok run →
      run.status = (if success then AnalysisRunStatus.completed else AnalysisRunStatus.failed)) ∧
    (∀ run, (fail_run runs run_id msg).2 = Except.ok run →
      run.status = AnalysisRunStatus.failed) ∧
    (∀ r' ∈ (start_run runs run_id).1, r'.status = AnalysisRunStatus.pending → r' ∈ runs) ∧
    (∀ r' ∈ (complete_run runs segments run_id success).1,
      r'.status = AnalysisRunStatus.pending → r' ∈ runs) ∧
    (∀ r' ∈ (fail_run runs run_id msg).1, r'.status = AnalysisRunStatus.pending → r' ∈ runs) := by
  cases h : runs.find? (fun r => r.id == run_id) with
  | none =>
    refine ⟨fun run hr => ?_, fun run hr => ?_, fun run hr => ?_, fun r' hr' _ => ?_,
      fun r' hr' _ => ?_, fun r' hr' _ => ?_⟩
    · simp [start_run, h] at hr
    · simp [complete_run, h] at hr
    · simp [fail_run, h] at hr
    · simpa [start_run, h] using hr'
    · simpa [complete_run, h] using hr'
    · simpa [fail_run, h] using hr'
  | some r =>
    refine ⟨fun run hr => ?_, fun run hr => ?_, fun run hr => ?_, ?_, ?_, ?_⟩
    · simp only [start_run, h, Except.ok.injEq] at hr
      subst hr; rfl
    · simp only [complete_run, h, Except.ok.injEq] at hr
      subst hr; cases success <;> rfl
    · simp only [fail_run, h, Except.ok.injEq] at hr
      subst hr; rfl
    · intro r' hr' hp
      simp only [start_run, h] at hr'
      rcases List.mem_map.mp hr' with ⟨q, hq, hfq⟩
      by_cases hid : (q.id == run_id) = true
      · rw [if_pos hid] at hfq
        subst hfq
        simp at hp
      · rw [if_neg hid] at hfq
        subst hfq; exact hq
    · intro r' hr' hp
      simp only [complete_run, h] at hr'
      rcases List.mem_map.mp hr' with ⟨q, hq, hfq⟩
      by_cases hid : (q.id == run_id) = true
      · rw [if_pos hid] at hfq
        subst hfq
        cases success <;> simp at hp
      · rw [if_neg hid] at hfq
        subst hfq; exact hq
    · intro r' hr' hp
      simp only [fail_run, h] at hr'
      rcases List.mem_map.mp hr' with ⟨q, hq, hfq⟩
      by_cases hid : (q.id == run_id) = true
      · rw [if_pos hid] at hfq
        subst hfq
        simp at hp
      · rw [if_neg hid] at hfq
        subst hfq; exact hq

/-- C3 amended witness: starting the concrete completed run yields status
running. -/
theorem lifecycle_ops_never_produce_pending_witness :
    ({ completedDemoRun with status := AnalysisRunStatus.running } : AnalysisRun).status =
      AnalysisRunStatus.running :=
  (lifecycle_ops_never_produce_pending [completedDemoRun] [] 1 true []).1
    { completedDemoRun with status := AnalysisRunStatus.running } rfl

/-- C9: `retry_failed_segments` maps `retryStep` over the table and selects
with `retrySelect`; a segment is selected exactly when it belongs to the run,
is failed and has `retry_count` strictly below the maximum; `retryStep` never
decreases `retry_count`, keeps it bounded by the maximum, resets exactly the
selected segments to pending (incrementing the count and clearing the error),
leaves everything else untouched, and a segment already at the maximum is
excluded.  (`retry_failed_segments` is the only operation in the service that
writes `retry_count`; segments are created with `retry_count = 0`.) -/
theorem retry_failed_segments_spec (segments : List SegmentRow) (run_id max_retries : Nat) :
    ((retry_failed_segments segments run_id max_retries).1 =
      segments.map (retryStep run_id max_retries)) ∧
    ((retry_failed_segments segments run_id max_retries).2 =
      (segments.filter (retrySelect run_id max_retries)).map (fun s => s.id)) ∧
    (∀ s : SegmentRow, retrySelect run_id max_retries s = true ↔
      (s.analysis_run_id = some run_id ∧ s.status = SegmentStatus.failed ∧
        s.retry_count < max_retries)) ∧
    (∀ s : SegmentRow, s.retry_count ≤ (retryStep run_id max_retries s).retry_count) ∧
    (∀ s : SegmentRow, s.retry_count ≤ max_retries →
      (retryStep run_id max_retries s).retry_count ≤ max_retries) ∧
    (∀ s : SegmentRow, retrySelect run_id max_retries s = true →
      retryStep run_id max_retries s =
        { s with status := SegmentStatus.pending, retry_count := s.retry_count + 1,
                 last_error := none }) ∧
    (∀ s : SegmentRow, retrySelect run_id max_retries s = false →
      retryStep run_id max_retries s = s) ∧
    (∀ s : SegmentRow, max_retries ≤ s.retry_count →
      retrySelect run_id max_retries s = false) := by
  refine ⟨rfl, rfl, ?_, ?_, ?_, ?_, ?_, ?_⟩
  · intro s
    unfold retrySelect
    simp only [Bool.and_eq_true, beq_iff_eq, decide_eq_true_eq]
    constructor
    · rintro ⟨⟨h1, h2⟩, h3⟩
      exact ⟨h1, h2, h3⟩
    · rintro ⟨h1, h2, h3⟩
      exact ⟨⟨h1, h2⟩, h3⟩
  · intro s
    unfold retryStep
    by_cases h : retrySelect run_id max_retries s = true
    · simp [h]
    · simp [h]
  · intro s hle
    unfold retryStep
    by_cases h : retrySelect run_id max_retries s = true
    · simp only [h, if_pos]
      have : s.retry_count < max_retries := by
        unfold retrySelect at h
        simp only [Bool.and_eq_true, decide_eq_true_eq] at h
        exact h.2
      omega
    · simp [h, hle]
  · intro s h
    unfold retryStep
    simp [h]
  · intro s h
    unfold retryStep
    simp [h]
  · intro s h
    unfold retrySelect
    simp only [Bool.and_eq_false_iff, decide_eq_false_iff_not]
    right
    omega

/-- C9 witness: a failed segment already at the maximum (3 retries) is not
selected for reset. -/
theorem retry_failed_segments_spec_witness :
    retrySelect 1 3
      { id := 9, document_id := 1, segment_type := "BRD".toList, start_char_index := 0,
        end_char_index := 2, status := SegmentStatus.failed, retry_count := 3,
        last_error := none, analysis_run_id := some 1 } = false :=
  (retry_failed_segments_spec [] 1 3).2.2.2.2.2.2.2
    { id := 9, document_id := 1, segment_type := "BRD".toList, start_char_index := 0,
      end_char_index := 2, status := SegmentStatus.failed, retry_count := 3,
      last_error := none, analysis_run_id := some 1 } (by decide)

/-- Every row produced by `materializeRows` carries the type and offsets of
one of the candidates it was built from. -/
theorem mem_materializeRows_fields {document_id n : Nat} {cs : List SegCandidate}
    {row : SegmentRow} (h : row ∈ materializeRows document_id n cs) :
    ∃ c ∈ cs, row.segment_type = c.segment_type ∧
      row.start_char_index = c.start_char_index ∧
      row.end_char_index = c.end_char_index := by
  induction cs generalizing n with
  | nil => cases h
  | cons c cs ih =>
    rcases List.mem_cons.mp h with h | h
    · exact ⟨c, List.mem_cons_self c cs, by subst h; exact ⟨rfl, rfl, rfl⟩⟩
    · rcases ih h with ⟨c', hc', hf⟩
      exact ⟨c', List.mem_cons_of_mem c hc', hf⟩

/-- Every candidate passed to `materializeRows` yields a row with its type
and offsets. -/
theorem materializeRows_exists_row {document_id n : Nat} {cs : List SegCandidate}
    {c : SegCandidate} (h : c ∈ cs) :
    ∃ row ∈ materializeRows document_id n cs, row.segment_type = c.segment_type ∧
      row.start_char_index = c.start_char_index ∧
      row.end_char_index = c.end_char_index := by
  induction cs generalizing n with
  | nil => cases h
  | cons c0 cs ih =>
    rcases List.mem_cons.mp h with h | h
    · subst h
      exact ⟨candidateRow document_id n c, List.mem_cons_self _ _, rfl, rfl, rfl⟩
    · rcases ih h (n := n + 1) with ⟨row, hrow, hf⟩
      exact ⟨row, List.mem_cons_of_mem _ hrow, hf⟩

/-- C6: a candidate passes the Pass-2 filter exactly when its type has a
strictly positive percentage in the composition map; every materialized row's
type is strictly positive in the map, every positive candidate is
materialized with its fields copied, and every row comes from such a
candidate. -/
theorem pass2_materializes_iff_positive_composition (document_id first_id : Nat)
    (composition : List (List Char × Int)) (candidates : List SegCandidate)
    (c : SegCandidate) :
    (c ∈ pass2FilterCandidates composition candidates ↔
      c ∈ candidates ∧ 0 < compositionLookup composition c.segment_type) ∧
    (∀ row ∈ pass2Materialize document_id first_id composition candidates,
      0 < compositionLookup composition row.segment_type) ∧
    (c ∈ candidates → 0 < compositionLookup composition c.segment_type →
      ∃ row ∈ pass2Materialize document_id first_id composition candidates,
        row.segment_type = c.segment_type ∧
        row.start_char_index = c.start_char_index ∧
        row.end_char_index = c.end_char_index) ∧
    (∀ row ∈ pass2Materialize document_id first_id composition candidates,
      ∃ cand ∈ candidates, 0 < compositionLookup composition cand.segment_type ∧
        row.segment_type = cand.segment_type ∧
        row.start_char_index = cand.start_char_index ∧
        row.end_char_index = cand.end_char_index) := by
  refine ⟨?_, ?_, ?_, ?_⟩
  · simp [pass2FilterCandidates, List.mem_filter]
  · intro row hrow
    rcases mem_materializeRows_fields hrow with ⟨cand, hcand, ht, _, _⟩
    have := (List.mem_filter.mp hcand).2
    rw [decide_eq_true_eq] at this
    rwa [ht]
  · intro hc hpos
    have hmem : c ∈ pass2FilterCandidates composition candidates :=
      List.mem_filter.mpr ⟨hc, by rwa [decide_eq_true_eq]⟩
    exact materializeRows_exists_row hmem
  · intro row hrow
    rcases mem_materializeRows_fields hrow with ⟨cand, hcand, hf⟩
    have hp := (List.mem_filter.mp hcand).2
    rw [decide_eq_true_eq] at hp
    exact ⟨cand, (List.mem_filter.mp hcand).1, hp, hf⟩

/-- C6 witness: with composition BRD 60 / API_DOCS 40, a BRD row is
materialized and BRD's percentage is strictly positive. -/
theorem pass2_materializes_iff_positive_composition_witness :
    (0 : Int) < compositionLookup [("BRD".toList, 60), ("API_DOCS".toList, 40)]
      ("BRD".toList) :=
  (pass2_materializes_iff_positive_composition 1 1
      [("BRD".toList, 60), ("API_DOCS".toList, 40)]
      [⟨"BRD".toList, 0, 10⟩] ⟨"BRD".toList, 0, 10⟩).2.1
    (candidateRow 1 1 ⟨"BRD".toList, 0, 10⟩) (by decide)

/-- C7 counterexample: the candidate ("BRD", start 3, end 2) of a
positive-percentage type is materialized verbatim although its offsets are
inverted — no bounds check `start < end ≤ len(raw_text)` exists in the
code. -/
theorem pass2_materializes_inverted_offsets :
    (pass2Materialize 1 1 [("BRD".toList, 60)] [⟨"BRD".toList, 3, 2⟩]).length = 1 ∧
    ∀ row ∈ pass2Materialize 1 1 [("BRD".toList, 60)] [⟨"BRD".toList, 3, 2⟩],
      row.start_char_index = 3 ∧ row.end_char_index = 2 ∧
        ¬ row.start_char_index < row.end_char_index := by decide

/-- C7 amended: Pass 2 copies each kept candidate's offsets verbatim and
performs no bounds validation, so the invariant
`0 ≤ start_char_index < end_char_index ≤ len(raw_text)` holds for every
materialized Segment exactly when every positive-composition candidate
proposed by the oracle already satisfies it (zero-composition candidates are
discarded and do not matter). -/
theorem pass2_offsets_copied_within_candidate_bounds (document_id first_id : Nat)
    (composition : List (List Char × Int)) (candidates : List SegCandidate) (len : Int) :
    (∀ row ∈ pass2Materialize document_id first_id composition candidates,
        0 ≤ row.start_char_index ∧ row.start_char_index < row.end_char_index ∧
          row.end_char_index ≤ len) ↔
      (∀ cand ∈ candidates, 0 < compositionLookup composition cand.segment_type →
        0 ≤ cand.start_char_index ∧ cand.start_char_index < cand.end_char_index ∧
          cand.end_char_index ≤ len) := by
  constructor
  · intro hrows cand hcand hpos
    have hmem : cand ∈ pass2FilterCandidates composition candidates :=
      List.mem_filter.mpr ⟨hcand, by rwa [decide_eq_true_eq]⟩
    obtain ⟨row, hrow, _, hs, he⟩ :=
      @materializeRows_exists_row document_id first_id _ _ hmem
    have hb := hrows row hrow
    rwa [hs, he] at hb
  · intro hb row hrow
    rcases mem_materializeRows_fields hrow with ⟨cand, hcand, _, hs, he⟩
    have hpos := (List.mem_filter.mp hcand).2
    rw [decide_eq_true_eq] at hpos
    rw [hs, he]
    exact hb cand (List.mem_filter.mp hcand).1 hpos

/-- C7 amended witness: for the concrete candidate list whose only (positive)
candidate has offsets 0 ≤ 0 < 2 ≤ 2, the materialized row is within
bounds. -/
theorem pass2_offsets_copied_within_candidate_bounds_witness :
    0 ≤ (candidateRow 1 1 ⟨"BRD".toList, 0, 2⟩).start_char_index ∧
      (candidateRow 1 1 ⟨"BRD".toList, 0, 2⟩).start_char_index <
        (candidateRow 1 1 ⟨"BRD".toList, 0, 2⟩).end_char_index ∧
      (candidateRow 1 1 ⟨"BRD".toList, 0, 2⟩).end_char_index ≤ 2 :=
  (pass2_offsets_copied_within_candidate_bounds 1 1 [("BRD".toList, 60)]
      [⟨"BRD".toList, 0, 2⟩] 2).mpr (by decide)
    (candidateRow 1 1 ⟨"BRD".toList, 0, 2⟩) (by decide)

/-- The segment used in the C5 scenario: pending, never written to by
Pass 3. -/
def demoSegment : SegmentRow :=
  { id := 1
    document_id := 1
    segment_type := "BRD".toList
    start_char_index := 0
    end_char_index := 2
    status := SegmentStatus.pending
    retry_count := 0
    last_error := none
    analysis_run_id := some 1 }

/-- C5 counterexample: a segment whose oracle response fails both parse
attempts is merely skipped — the segment table is unchanged and its status
stays pending, it is NOT set to failed; no AnalysisResult is created. -/
theorem pass3_failed_parse_leaves_status_unchanged :
    (pass3StructuredExtraction (fun _ => none)
        (fun _ => Except.ok ("not json at all".toList)) [demoSegment]).1 = [demoSegment] ∧
    demoSegment.status = SegmentStatus.pending ∧
    ¬ demoSegment.status = SegmentStatus.failed ∧
    (pass3StructuredExtraction (fun _ => none)
        (fun _ => Except.ok ("not json at all".toList)) [demoSegment]).2 = [] := by
  refine ⟨rfl, rfl, by decide, rfl⟩

/-- C5 amended: in Pass 3 the Response Repair parse is retried exactly once
after a first parse failure; a segment whose extraction raises or whose both
parse attempts fail yields no AnalysisResult and is skipped with its status
left unchanged (not marked failed), and the pipeline continues with the
remaining segments. -/
theorem pass3_partial_failure_tolerated (parse : List Char → Option Json)
    (oracle : SegmentRow → Except (List Char) (List Char))
    (segments rest : List SegmentRow) (s : SegmentRow) (r e : List Char) (d : Json) :
    ((pass3StructuredExtraction parse oracle segments).1 = segments) ∧
    (oracle s = Except.error e → pass3ProcessSegment parse oracle s = none) ∧
    (oracle s = Except.ok r → parse (pass3Clean r) = none →
      parse (repair_json_response r) = none →
      pass3ProcessSegment parse oracle s = none) ∧
    (oracle s = Except.ok r → parse (pass3Clean r) = none →
      parse (repair_json_response r) = some d → isNonEmptyContainer d = true →
      pass3ProcessSegment parse oracle s = some d) ∧
    ((pass3StructuredExtraction parse oracle (s :: rest)).2 =
      ((pass3ProcessSegment parse oracle s).map (fun d0 => (s.id, d0))).toList ++
        (pass3StructuredExtraction parse oracle rest).2) := by
  refine ⟨rfl, ?_, ?_, ?_, ?_⟩
  · intro h
    simp [pass3ProcessSegment, h]
  · intro h h1 h2
    simp [pass3ProcessSegment, h, h1, h2]
  · intro h h1 h2 h3
    simp [pass3ProcessSegment, h, h1, h2, h3]
  · cases hps : pass3ProcessSegment parse oracle s <;>
      simp [pass3StructuredExtraction, List.filterMap_cons, hps]

/-- C5 amended witness: an oracle exception for the concrete segment yields
no result. -/
theorem pass3_partial_failure_tolerated_witness :
    pass3ProcessSegment (fun _ => none)
      (fun _ => Except.error ("boom".toList)) demoSegment = none :=
  (pass3_partial_failure_tolerated (fun _ => none)
      (fun _ => Except.error ("boom".toList)) [] [] demoSegment
      ("r".toList) ("boom".toList) Json.null).2.1 rfl

/-- A pre-existing Mismatch row for the pairing (document 1, component 2),
used in the C2 scenario. -/
def staleDemoMismatch : MismatchRow :=
  { id := 1
    owner_id := 7
    document_id := 1
    code_component_id := 2
    mismatch_type := "General Consistency Check".toList
    description := "stale finding".toList
    severity := "High".toList
    confidence := "High".toList
    expected := "expected".toList
    actual := "actual".toList
    evidence_document := "doc evidence".toList
    evidence_code := "code evidence".toList
    suggested_action := "fix".toList
    status := "open".toList }

/-- C2 (evaluating the code at the failing input): for a pairing whose
document and component exist and whose document has content,
`validate_single_link` raises before touching the table, so a pre-existing
Mismatch row for the pairing survives two successive validation scans
untouched — it is never deleted and nothing is inserted; the delete-then-
insert replacement the claim describes never happens.  `remove_by_link`,
written for the service but never called by it, is what would have deleted
the stale row. -/
theorem validate_single_link_raises_and_writes_nothing :
    (validate_single_link [staleDemoMismatch] 1 2 7 true true true).1 =
        [staleDemoMismatch] ∧
    (validate_single_link [staleDemoMismatch] 1 2 7 true true true).2 =
      Except.error ("AttributeError: CodeComponent has no attribute content".toList) ∧
    (validate_single_link
        (validate_single_link [staleDemoMismatch] 1 2 7 true true true).1
        1 2 7 true true true).1 = [staleDemoMismatch] ∧
    (remove_by_link [staleDemoMismatch] 1 2).1 = [] := by
  refine ⟨rfl, rfl, rfl, rfl⟩

/-- C4 counterexample: a failed validation oracle call does not propagate as
an error — `call_gemini_for_validation` silently returns the empty list. -/
theorem failed_validation_call_returns_empty_list :
    call_gemini_for_validation (fun _ => none) (Except.error ("timeout".toList)) = [] :=
  rfl

/-- C4 amended: only the document parser's `_process_with_gemini` propagates
failure — after the first two attempts fail, the third attempt's outcome
(error included) is the caller's result; `call_gemini_for_validation`
substitutes an empty list for any failed call, and
`call_gemini_for_code_analysis` substitutes an error-shaped dict. -/
theorem oracle_failure_handling (attempts : Nat → Except (List Char) (List Char))
    (parse : List Char → Option Json) (e : List Char) :
    ((∃ e0, attempts 0 = Except.error e0) → (∃ e1, attempts 1 = Except.error e1) →
      process_with_gemini attempts = attempts 2) ∧
    call_gemini_for_validation parse (Except.error e) = [] ∧
    call_gemini_for_code_analysis parse (Except.error e) = codeAnalysisCallErrorResult e := by
  refine ⟨?_, rfl, rfl⟩
  rintro ⟨e0, h0⟩ ⟨e1, h1⟩
  simp [process_with_gemini, h0, h1]

/-- C4 amended witness: with every attempt failing, the document parser call
propagates the error. -/
theorem oracle_failure_handling_witness :
    process_with_gemini (fun _ => Except.error ("x".toList)) =
      Except.error ("x".toList) :=
  (oracle_failure_handling (fun _ => Except.error ("x".toList)) (fun _ => none)
      ("x".toList)).1 ⟨"x".toList, rfl⟩ ⟨"x".toList, rfl⟩

end Dokydoc
